import Mathlib

set_option maxRecDepth 16384

/-!
# Verification of the execution-coach bot core (`src/bot.py`)

Shallow embedding of the user-context aggregation pipeline, streak
calculation, fallback keyword classifier, context-tag classifier and the
command handlers of `src/bot.py`.  Time is modelled at calendar-day
granularity: an `Activity.timestamp` stands for the calendar date of the
recorded datetime (Python `activity.timestamp.date()` is the identity in
this model), and a `Clock` carries both the UTC calendar date
(`datetime.utcnow().date()`) and the process-local calendar date
(`datetime.now().date()`), which may differ.
-/

/-- One row of the `users` table (`class User`, src/bot.py lines 25-38).
Only the columns the verified code paths read are kept. -/
structure UserRow where
  telegram_id : Int
  first_name : String
  current_business_idea : Option String
  execution_phase : String
  created_at : Int
  total_activities : Nat
  last_active : Int
  deriving Repr, DecidableEq

/-- One row of the `goals` table (`class Goal`, src/bot.py lines 40-51). -/
structure GoalRow where
  user_id : Int
  title : String
  status : String
  goal_type : String
  priority : Int
  deriving Repr, DecidableEq

/-- One row of the `activities` table (`class Activity`, src/bot.py lines
53-64).  `timestamp` is the calendar date of the recorded UTC datetime. -/
structure ActivityRow where
  user_id : Int
  description : String
  activity_type : String
  timestamp : Int
  mood_score : Option Nat
  notes : Option String
  context_tags : Option String
  deriving Repr, DecidableEq

/-- One row of the `conversations` table (`class Conversation`,
src/bot.py lines 76-85). -/
structure ConversationRow where
  user_id : Int
  message_text : String
  bot_response : String
  context_tags : String
  timestamp : Int
  response_type : String
  deriving Repr, DecidableEq

/-- The relational store: the four tables the verified paths touch.
Row order inside a list is immaterial (every query sorts or filters). -/
structure DB where
  users : List UserRow
  goals : List GoalRow
  activities : List ActivityRow
  conversations : List ConversationRow
  deriving Repr, DecidableEq

/-- The empty database (fresh deployment, no rows). -/
def DB.empty : DB := ⟨[], [], [], []⟩

/-- The two clocks the source reads: `datetime.utcnow().date()` (used for
row timestamps, `last_active`, tenure) and `datetime.now().date()` (used
as the anchor of `calculate_streak`).  They need not agree. -/
structure Clock where
  utcDate : Int
  localDate : Int
  deriving Repr, DecidableEq

/-- `session.query(User).filter_by(telegram_id=uid).first()`. -/
def lookupUser (db : DB) (uid : Int) : Option UserRow :=
  db.users.find? (fun u => u.telegram_id = uid)

/-- All `Activity` rows of one user (the unsorted content of
`session.query(Activity).filter_by(user_id=...)`). -/
def activitiesOf (db : DB) (uid : Int) : List ActivityRow :=
  db.activities.filter (fun a => a.user_id = uid)

/-- The body of the `while check_date in activity_dates` loop of
`calculate_streak` (src/bot.py lines 258-261), with explicit fuel; the
fuel is chosen large enough that it is never exhausted (see
`countConsecutive_lt_fuel`). -/
def countConsecutive (dates : Finset Int) (check : Int) : Nat → Nat
  | 0 => 0
  | fuel + 1 =>
    if check ∈ dates then countConsecutive dates (check - 1) fuel + 1 else 0

/-- The distinct calendar dates of a user's activities
(`activity_dates`, src/bot.py lines 253-255). -/
def activityDates (activities : List ActivityRow) : Finset Int :=
  (activities.map (fun a => a.timestamp)).toFinset

/-- `UserContext.calculate_streak` (src/bot.py lines 238-265): collect the
distinct activity dates, then walk backward from `today`
(= `datetime.now().date()`) while each day is present. -/
def calculate_streak (activities : List ActivityRow) (today : Int) : Nat :=
  if activities.isEmpty then 0
  else
    let dates := activityDates activities
    countConsecutive dates today (dates.card + 1)

theorem countConsecutive_le_fuel (dates : Finset Int) (check : Int)
    (fuel : Nat) : countConsecutive dates check fuel ≤ fuel := by
  induction fuel generalizing check with
  | zero => simp [countConsecutive]
  | succ n ih =>
    simp only [countConsecutive]
    split
    · exact Nat.succ_le_succ (ih _)
    · exact Nat.zero_le _

/-- As long as the loop has not run out of fuel, its result is a streak
length: every day walked over is in the set, the next one is not. -/
theorem countConsecutive_spec (dates : Finset Int) (check : Int)
    (fuel : Nat) (h : countConsecutive dates check fuel < fuel) :
    (∀ k : Nat, k < countConsecutive dates check fuel →
      check - k ∈ dates) ∧
    check - (countConsecutive dates check fuel : Int) ∉ dates := by
  induction fuel generalizing check with
  | zero => exact absurd h (Nat.not_lt_zero _)
  | succ n ih =>
    by_cases hc : check ∈ dates
    · have hdef : countConsecutive dates check (n + 1)
          = countConsecutive dates (check - 1) n + 1 := by
        simp [countConsecutive, hc]
      rw [hdef] at h ⊢
      have hlt : countConsecutive dates (check - 1) n < n :=
        Nat.lt_of_succ_lt_succ h
      obtain ⟨h1, h2⟩ := ih (check - 1) hlt
      constructor
      · intro k hk
        match k with
        | 0 => simpa using hc
        | k + 1 =>
          have : check - 1 - (k : Int) ∈ dates :=
            h1 k (Nat.lt_of_succ_lt_succ hk)
          have heq : check - ((k : Nat) + 1 : Nat) = check - 1 - (k : Int) := by
            push_cast
            ring
          rw [heq]
          exact this
      · have heq : check - ((countConsecutive dates (check - 1) n : Nat) + 1 : Nat)
            = check - 1 - (countConsecutive dates (check - 1) n : Int) := by
          push_cast
          ring
        rw [heq]
        exact h2
    · have hdef : countConsecutive dates check (n + 1) = 0 := by
        simp [countConsecutive, hc]
      rw [hdef]
      exact ⟨fun k hk => absurd hk (Nat.not_lt_zero _), by simpa using hc⟩

/-- The loop never exhausts fuel `dates.card + 1`: a run of `card + 1`
consecutive members would inject `card + 1` distinct integers into
`dates`. -/
theorem countConsecutive_lt_fuel (dates : Finset Int) (check : Int) :
    countConsecutive dates check (dates.card + 1) < dates.card + 1 := by
  rcases Nat.lt_or_ge (countConsecutive dates check (dates.card + 1))
      (dates.card + 1) with h | h
  · exact h
  · exfalso
    have hall : ∀ k : Nat, k < dates.card + 1 → check - k ∈ dates := by
      -- if the result used all the fuel, every step of the walk was a hit
      have : ∀ fuel : Nat, ∀ c : Int, fuel ≤ countConsecutive dates c fuel →
          ∀ k : Nat, k < fuel → c - k ∈ dates := by
        intro fuel
        induction fuel with
        | zero => intro c _ k hk; exact absurd hk (Nat.not_lt_zero _)
        | succ n ih =>
          intro c hc k hk
          by_cases hmem : c ∈ dates
          · have hdef : countConsecutive dates c (n + 1)
                = countConsecutive dates (c - 1) n + 1 := by
              simp [countConsecutive, hmem]
            rw [hdef] at hc
            match k with
            | 0 => simpa using hmem
            | k + 1 =>
              have : c - 1 - (k : Int) ∈ dates :=
                ih (c - 1) (Nat.le_of_succ_le_succ hc) k
                  (Nat.lt_of_succ_lt_succ hk)
              have heq : c - ((k : Nat) + 1 : Nat) = c - 1 - (k : Int) := by
                push_cast
                ring
              rw [heq]
              exact this
          · have hdef : countConsecutive dates c (n + 1) = 0 := by
              simp [countConsecutive, hmem]
            rw [hdef] at hc
            exact absurd hc (by omega)
      have hge : dates.card + 1 ≤ countConsecutive dates check (dates.card + 1) := h
      exact this (dates.card + 1) check hge
    -- the map k ↦ check - k on {0, ..., card} is injective into dates
    have hinj : ∀ a ∈ Finset.range (dates.card + 1),
        ∀ b ∈ Finset.range (dates.card + 1),
        check - (a : Int) = check - (b : Int) → a = b := by
      intro a _ b _ hab
      omega
    have hsub : (Finset.range (dates.card + 1)).image
        (fun k : Nat => check - (k : Int)) ⊆ dates := by
      intro x hx
      obtain ⟨k, hk, rfl⟩ := Finset.mem_image.mp hx
      exact hall k (Finset.mem_range.mp hk)
    have hcard : dates.card + 1 ≤ dates.card := by
      calc dates.card + 1
          = (Finset.range (dates.card + 1)).card := (Finset.card_range _).symm
        _ = ((Finset.range (dates.card + 1)).image
              (fun k : Nat => check - (k : Int))).card :=
            (Finset.card_image_of_injOn hinj).symm
        _ ≤ dates.card := Finset.card_le_card hsub
    omega

/-- Full behavioural characterisation of `calculate_streak`: the result
`s` satisfies "days `today, today-1, ..., today-s+1` are all activity
dates and `today-s` is not". -/
theorem calculate_streak_spec (activities : List ActivityRow) (today : Int) :
    (∀ k : Nat, k < calculate_streak activities today →
      today - k ∈ activityDates activities) ∧
    today - (calculate_streak activities today : Int) ∉
      activityDates activities := by
  unfold calculate_streak
  by_cases he : activities.isEmpty
  · simp only [he, if_true]
    constructor
    · intro k hk
      exact absurd hk (Nat.not_lt_zero _)
    · simp only [Int.ofNat_zero, sub_zero]
      intro hmem
      rw [List.isEmpty_iff] at he
      simp [activityDates, he] at hmem
  · simp only [he, if_false]
    exact countConsecutive_spec _ _ _ (countConsecutive_lt_fuel _ _)

/-- An activity row with a given owner and date (helper for concrete
scenarios; description/type values are immaterial to the streak). -/
def mkActivity (uid : Int) (date : Int) : ActivityRow :=
  { user_id := uid, description := "worked", activity_type := "task_completed"
  , timestamp := date, mood_score := none, notes := none, context_tags := none }

/-- The spec's example date set {today, today-1, today-2, today-4} with
today = 0. -/
def streakExampleActs : List ActivityRow :=
  [mkActivity 1 0, mkActivity 1 (-1), mkActivity 1 (-2), mkActivity 1 (-4)]

/-- C1: `calculate_streak` returns the size of the maximal suffix of
consecutive calendar days ending at today's date that are all present in
the set of distinct activity dates; today absent gives 0, today present
gives at least 1, and a gap stops the count (example
{today, today-1, today-2, today-4} gives 3). -/
theorem C1_calculate_streak_maximal_consecutive_suffix
    (activities : List ActivityRow) (today : Int) :
    (∀ k : Nat, k < calculate_streak activities today →
      today - k ∈ activityDates activities) ∧
    (∀ n : Nat, (∀ k : Nat, k < n → today - k ∈ activityDates activities) →
      n ≤ calculate_streak activities today) ∧
    (today ∉ activityDates activities → calculate_streak activities today = 0) ∧
    (today ∈ activityDates activities → 1 ≤ calculate_streak activities today) ∧
    calculate_streak streakExampleActs 0 = 3 := by
  obtain ⟨h1, h2⟩ := calculate_streak_spec activities today
  have hmax : ∀ n : Nat,
      (∀ k : Nat, k < n → today - k ∈ activityDates activities) →
      n ≤ calculate_streak activities today := by
    intro n hn
    by_contra hlt
    push_neg at hlt
    exact h2 (hn _ hlt)
  refine ⟨h1, hmax, ?_, ?_, by decide⟩
  · intro habs
    by_contra hne
    have h0 : 0 < calculate_streak activities today := Nat.pos_of_ne_zero hne
    have := h1 0 h0
    simp only [Int.ofNat_zero, sub_zero] at this
    exact habs (by simpa using this)
  · intro hmem
    refine hmax 1 ?_
    intro k hk
    interval_cases k
    simpa using hmem

/-- Witness for C1 at concrete input: for the spec's example set with
today = 0, the hypotheses of every implication are dischargeable and the
streak is 3 (at least 1 since today is present). -/
theorem C1_witness :
    1 ≤ calculate_streak streakExampleActs 0 ∧
    3 ≤ calculate_streak streakExampleActs 0 ∧
    calculate_streak streakExampleActs 0 = 3 := by
  obtain ⟨_, hmax, _, hpos, hex⟩ :=
    C1_calculate_streak_maximal_consecutive_suffix streakExampleActs 0
  refine ⟨hpos (by decide), hmax 3 ?_, hex⟩
  intro k hk
  interval_cases k <;> decide

/-! ## String primitives: `str.lower()` and the `in` substring test -/

/-- Python's `message.lower()`: lowercase every character. -/
def lowerStr (s : String) : String := ⟨s.data.map Char.toLower⟩

/-- Python's `needle in hay` on strings: substring containment. -/
def strContains (hay needle : String) : Bool :=
  decide (needle.data <:+: hay.data)

/-- Python's `any(word in message_lower for word in words)`. -/
def containsAny (hay : String) (words : List String) : Bool :=
  words.any (fun w => strContains hay w)

/-! ## Keyword lists of `fallback_response` (src/bot.py lines 593, 597, 601) -/

def procrastinationWords : List String :=
  ["procrastinating", "avoiding", "stuck", "overwhelmed", "can't start"]

def impatienceWords : List String :=
  ["slow", "not working", "no results", "giving up", "frustrated"]

def celebrationWords : List String :=
  ["completed", "finished", "done", "achieved", "launched", "win"]

/-! ## Keyword lists of `analyze_message_context` (src/bot.py lines 792-805) -/

def procrastinationTagWords : List String :=
  ["procrastinating", "avoiding", "stuck", "overwhelmed"]

def impatienceTagWords : List String :=
  ["slow", "frustrated", "no results", "impatient"]

def winTagWords : List String :=
  ["completed", "finished", "done", "win", "success"]

def customerTagWords : List String :=
  ["customer", "client", "user", "sale"]

def financialTagWords : List String :=
  ["money", "revenue", "funding", "investment"]

/-! ## Aggregated user context (the dict built by `get_user_data`) -/

/-- The dict `UserContext.get_user_data` assembles (src/bot.py lines
213-223).  The empty dict returned when the user row is absent is
modelled as `none` at use sites (`Option ContextData`). -/
structure ContextData where
  user : UserRow
  recent_activities : List ActivityRow
  active_goals : List GoalRow
  recent_conversations : List ConversationRow
  last_checkin : Option Int
  current_streak : Nat
  execution_phase : String
  total_activities : Nat
  days_since_start : Int
  deriving Repr, DecidableEq

/-- `context_data.get('user')` followed by
`user.first_name if user else 'friend'`. -/
def ctxFirstName (ctx : Option ContextData) : String :=
  match ctx with
  | none => "friend"
  | some c => c.user.first_name

/-- `context_data.get('current_streak', 0)`. -/
def ctxStreak (ctx : Option ContextData) : Nat :=
  match ctx with
  | none => 0
  | some c => c.current_streak

/-- `context_data.get('execution_phase', 'planning')`. -/
def ctxPhase (ctx : Option ContextData) : String :=
  match ctx with
  | none => "planning"
  | some c => c.execution_phase

/-! ## Fallback templates (`GeminiCoach.fallback_response`, lines 584-605) -/

/-- The procrastination template (line 594). -/
def procrastinationTemplate (name : String) (streak : Nat) (phase : String) :
    String :=
  "I see you're feeling stuck, " ++ name ++ ". Your " ++ toString streak ++
  "-day streak shows you CAN take action! Let's break this down: what's the smallest possible step you could take in the next 5 minutes? Even tiny progress in the "
  ++ phase ++ " phase builds momentum. 🚀"

/-- The impatience template (line 598). -/
def impatienceTemplate (streak : Nat) (phase : String) : String :=
  "I understand the frustration! In the " ++ phase ++
  " phase, most solo entrepreneurs need 3-6 months to see real results. Your "
  ++ toString streak ++
  "-day action streak is exactly how success builds - one step at a time. What would count as progress in the next 7 days? 📈"

/-- The celebration template (line 602); note it prints `streak + 1`. -/
def celebrationTemplate (streak : Nat) (phase : String) : String :=
  "🎉 Amazing work! That's day " ++ toString (streak + 1) ++
  " of taking action. This is exactly how momentum builds in the " ++ phase ++
  " phase. What felt good about completing that? And what's the next small step to keep this energy going? 💪"

/-- The general coaching template (line 605). -/
def generalTemplate (name : String) (streak : Nat) (phase : String) : String :=
  "I'm here to help you execute, " ++ name ++ "! You're in the " ++ phase ++
  " phase with a " ++ toString streak ++
  "-day action streak. What's on your mind? Use /stuck if you're procrastinating, /win to celebrate progress, or just tell me what you're working on! 🎯"

/-- `GeminiCoach.fallback_response` (src/bot.py lines 584-605): four
keyword buckets tried in order, first match wins. -/
def fallback_response (message : String) (ctx : Option ContextData) : String :=
  let message_lower := lowerStr message
  if containsAny message_lower procrastinationWords then
    procrastinationTemplate (ctxFirstName ctx) (ctxStreak ctx) (ctxPhase ctx)
  else if containsAny message_lower impatienceWords then
    impatienceTemplate (ctxStreak ctx) (ctxPhase ctx)
  else if containsAny message_lower celebrationWords then
    celebrationTemplate (ctxStreak ctx) (ctxPhase ctx)
  else
    generalTemplate (ctxFirstName ctx) (ctxStreak ctx) (ctxPhase ctx)

/-- The four response buckets of `fallback_response`, named after the
source's comments. -/
inductive FallbackBucket where
  | procrastination
  | impatience
  | celebration
  | general
  deriving Repr, DecidableEq

/-- The bucket `fallback_response` resolves a message to (mirrors its
`if`/`elif` chain on the lower-cased message). -/
def fallback_bucket (message : String) : FallbackBucket :=
  let message_lower := lowerStr message
  if containsAny message_lower procrastinationWords then .procrastination
  else if containsAny message_lower impatienceWords then .impatience
  else if containsAny message_lower celebrationWords then .celebration
  else .general

/-- The template text each bucket renders. -/
def bucketTemplate (b : FallbackBucket) (name : String) (streak : Nat)
    (phase : String) : String :=
  match b with
  | .procrastination => procrastinationTemplate name streak phase
  | .impatience => impatienceTemplate streak phase
  | .celebration => celebrationTemplate streak phase
  | .general => generalTemplate name streak phase

/-! ## Context-tag classifier (`analyze_message_context`, lines 787-807) -/

/-- The `tags` list built by `analyze_message_context`: five independent
membership checks, each appending its tag. -/
def analyzeTags (message : String) : List String :=
  let message_lower := lowerStr message
  (if containsAny message_lower procrastinationTagWords
    then ["procrastination"] else []) ++
  (if containsAny message_lower impatienceTagWords
    then ["impatience"] else []) ++
  (if containsAny message_lower winTagWords then ["win"] else []) ++
  (if containsAny message_lower customerTagWords
    then ["customer_related"] else []) ++
  (if containsAny message_lower financialTagWords then ["financial"] else [])

/-- `ExecutionCoachBot.analyze_message_context` (src/bot.py lines
787-807): `','.join(tags) if tags else 'general'`. -/
def analyze_message_context (message : String) : String :=
  let tags := analyzeTags message
  if tags.isEmpty then "general" else String.intercalate "," tags

/-! ## Response generation (`GeminiCoach.generate_response`, lines 550-582) -/

/-- Outcome of one hosted generation attempt
(`self.model.generate_content`): the call raised, or it returned a
response whose text payload may be missing (`none` also covers a falsy
response object). -/
inductive GenOutcome where
  | error (e : String)
  | ok (text : Option String)
  deriving Repr, DecidableEq

/-- `GeminiCoach.generate_response`: disabled, raised, or empty/missing
text all degrade to `fallback_response`; a non-empty payload is returned
stripped.  The `try`/`except` of the source makes this a total function:
no exception reaches the caller. -/
def generate_response (enabled : Bool) (outcome : GenOutcome)
    (message : String) (ctx : Option ContextData) : String :=
  if !enabled then fallback_response message ctx
  else
    match outcome with
    | .error _ => fallback_response message ctx
    | .ok none => fallback_response message ctx
    | .ok (some t) =>
      if t = "" then fallback_response message ctx else t.trim

/-- `handle_message`'s origin for the conversation log (src/bot.py line
764): `"gemini" if self.gemini_coach.enabled else "fallback"` — it
depends only on the enabled flag, not on which path produced the text. -/
def response_type (enabled : Bool) : String :=
  if enabled then "gemini" else "fallback"

/-! ## Aggregation (`UserContext`, src/bot.py lines 186-289) -/

/-- Descending-timestamp order used by
`.order_by(Activity.timestamp.desc())`. -/
def tsGe (a b : ActivityRow) : Prop := b.timestamp ≤ a.timestamp

instance : DecidableRel tsGe := fun a b =>
  inferInstanceAs (Decidable (b.timestamp ≤ a.timestamp))

/-- Descending-priority order used by
`.order_by(Goal.priority.desc())`. -/
def prGe (a b : GoalRow) : Prop := b.priority ≤ a.priority

instance : DecidableRel prGe := fun a b =>
  inferInstanceAs (Decidable (b.priority ≤ a.priority))

/-- Descending-timestamp order used by
`.order_by(Conversation.timestamp.desc())`. -/
def convTsGe (a b : ConversationRow) : Prop := b.timestamp ≤ a.timestamp

instance : DecidableRel convTsGe := fun a b =>
  inferInstanceAs (Decidable (b.timestamp ≤ a.timestamp))

/-- A user's activities ordered by timestamp descending. -/
def sortedActivitiesDesc (l : List ActivityRow) : List ActivityRow :=
  l.insertionSort tsGe

/-- All `Conversation` rows of one user. -/
def conversationsOf (db : DB) (uid : Int) : List ConversationRow :=
  db.conversations.filter (fun c => c.user_id = uid)

/-- `UserContext.get_last_checkin` (src/bot.py lines 228-236): timestamp
of the most recent activity, if any. -/
def get_last_checkin (db : DB) (uid : Int) : Option Int :=
  ((sortedActivitiesDesc (activitiesOf db uid)).head?).map (fun a => a.timestamp)

/-- The dict construction of `get_user_data` for an existing user row
(src/bot.py lines 201-223). -/
def aggregate (db : DB) (u : UserRow) (clock : Clock) : ContextData :=
  let acts := activitiesOf db u.telegram_id
  { user := u
  , recent_activities := (sortedActivitiesDesc acts).take 20
  , active_goals :=
      (db.goals.filter
        (fun g => g.user_id = u.telegram_id ∧ g.status = "active")).insertionSort prGe
  , recent_conversations :=
      ((conversationsOf db u.telegram_id).insertionSort convTsGe).take 10
  , last_checkin := get_last_checkin db u.telegram_id
  , current_streak := calculate_streak acts clock.localDate
  , execution_phase := u.execution_phase
  , total_activities := u.total_activities
  , days_since_start := clock.utcDate - u.created_at }

/-- A `UserContext` instance: the shared store plus the per-call cache
field `self._user_data` (src/bot.py lines 187-191).  Handlers construct
it fresh, so the cache starts as `none`. -/
structure UCState where
  db : DB
  cache : Option ContextData
  deriving Repr, DecidableEq

/-- `UserContext.get_user_data` (src/bot.py lines 193-226): serve the
cache if set; otherwise return the empty dict (`none`) when the user row
is absent — without caching — or aggregate and cache.  Note the absent
user case returns `{}` rather than raising. -/
def get_user_data (s : UCState) (uid : Int) (clock : Clock) :
    Option ContextData × UCState :=
  match s.cache with
  | some d => (some d, s)
  | none =>
    match lookupUser s.db uid with
    | none => (none, s)
    | some u =>
      let d := aggregate s.db u clock
      (some d, ⟨s.db, some d⟩)

/-- The row insert and user update of `UserContext.log_activity`
(src/bot.py lines 267-289), at the store level: insert the Activity
(timestamped with the UTC clock), and — if the user row exists —
increment `total_activities` and refresh `last_active`. -/
def db_log_activity (db : DB) (uid : Int) (description activity_type : String)
    (mood_score : Option Nat) (notes context_tags : Option String)
    (clock : Clock) : DB :=
  let activity : ActivityRow :=
    { user_id := uid, description := description
    , activity_type := activity_type, timestamp := clock.utcDate
    , mood_score := mood_score, notes := notes, context_tags := context_tags }
  { db with
    activities := activity :: db.activities
  , users := db.users.map (fun u =>
      if u.telegram_id = uid then
        { u with total_activities := u.total_activities + 1, last_active := clock.utcDate }
      else u) }

/-- `UserContext.log_activity`: the store write followed by
`self._user_data = None` (reset of the per-call cache). -/
def log_activity (s : UCState) (uid : Int) (description activity_type : String)
    (mood_score : Option Nat) (notes context_tags : Option String)
    (clock : Clock) : UCState :=
  ⟨db_log_activity s.db uid description activity_type mood_score notes
    context_tags clock, none⟩

/-- `DatabaseManager.get_or_create_user` (src/bot.py lines 165-184):
return the existing row (refreshing `last_active`) or create one with the
column defaults. -/
def get_or_create_user (db : DB) (uid : Int) (first_name : String)
    (clock : Clock) : UserRow × DB :=
  match lookupUser db uid with
  | some u =>
    ({ u with last_active := clock.utcDate }
    , { db with users := db.users.map (fun v =>
        if v.telegram_id = uid then { v with last_active := clock.utcDate }
        else v) })
  | none =>
    let u : UserRow :=
      { telegram_id := uid, first_name := first_name
      , current_business_idea := none, execution_phase := "planning"
      , created_at := clock.utcDate, total_activities := 0
      , last_active := clock.utcDate }
    (u, { db with users := db.users ++ [u] })

/-! ## Command handlers (`ExecutionCoachBot`) -/

/-- `ExecutionCoachBot.handle_message` (src/bot.py lines 741-785):
ensure the user exists, aggregate context through a fresh `UserContext`,
generate (or fall back), tag, and append the conversation log row.
Returns the reply text and the new store. -/
def handle_message (enabled : Bool) (outcome : GenOutcome) (db : DB)
    (uid : Int) (first_name : String) (message_text : String)
    (clock : Clock) : String × DB :=
  let (_, db1) := get_or_create_user db uid first_name clock
  let (context_data, _) := get_user_data ⟨db1, none⟩ uid clock
  let response := generate_response enabled outcome message_text context_data
  let rtype := response_type enabled
  let tags := analyze_message_context message_text
  let conv : ConversationRow :=
    { user_id := uid, message_text := message_text, bot_response := response
    , context_tags := tags, timestamp := clock.utcDate
    , response_type := rtype }
  (response, { db1 with conversations := db1.conversations ++ [conv] })

/-- The fixed message `handle_stuck` sends to the generator
(src/bot.py line 818). -/
def unstuck_message : String :=
  "I'm feeling stuck and procrastinating. Please help me get unstuck with a specific 5-minute action I can take right now."

/-- `ExecutionCoachBot.handle_stuck` (src/bot.py lines 809-821): read the
context, log the blocker activity, then generate the reply **from the
context read before the write** (`context_data` is captured before
`log_activity`). -/
def handle_stuck (enabled : Bool) (outcome : GenOutcome) (db : DB)
    (uid : Int) (clock : Clock) : String × DB :=
  let s0 : UCState := ⟨db, none⟩
  let (context_data, s1) := get_user_data s0 uid clock
  let s2 := log_activity s1 uid "User reported feeling stuck" "blocker"
    none none (some "procrastination,stuck") clock
  let response := generate_response enabled outcome unstuck_message context_data
  ("🚨 Stuck Alert Activated!\n\n" ++ response, s2.db)

/-- The `context_data` value that `handle_stuck` hands to
`generate_response`: the aggregation performed *before* the blocker
activity is logged. -/
def handle_stuck_prompt_context (db : DB) (uid : Int) (clock : Clock) :
    Option ContextData :=
  (get_user_data ⟨db, none⟩ uid clock).1

/-- `ExecutionCoachBot.log_win` (src/bot.py lines 823-835): log the win
activity first, then aggregate (fresh, post-write) and generate the
celebration reply. -/
def log_win (enabled : Bool) (outcome : GenOutcome) (db : DB) (uid : Int)
    (args : List String) (clock : Clock) : String × DB :=
  let win_description :=
    if args.isEmpty then "Achieved a win!" else String.intercalate " " args
  let s0 : UCState := ⟨db, none⟩
  let s1 := log_activity s0 uid win_description "win" (some 4) none
    (some "win,celebration") clock
  let (context_data, s2) := get_user_data s1 uid clock
  let celebration_message :=
    "I just achieved a win: " ++ win_description ++
    ". Please celebrate with me and help me build on this momentum!"
  let response :=
    generate_response enabled outcome celebration_message context_data
  ("🎉 Win Logged!\n\n" ++ response, s2.db)

/-- `ExecutionCoachBot.set_goal` (src/bot.py lines 1022-1038): insert a
Goal row for the sender's identity — without checking that a User row
exists. -/
def set_goal (db : DB) (uid : Int) (args : List String) : String × DB :=
  if args.isEmpty then ("Usage: /goal Your goal description", db)
  else
    let goal_text := String.intercalate " " args
    let goal : GoalRow :=
      { user_id := uid, title := goal_text, status := "active"
      , goal_type := "general", priority := 1 }
    ("🎯 Goal set: " ++ goal_text ++
      "\n\nWhat's the first small step toward this goal?"
    , { db with goals := db.goals ++ [goal] })

/-- `ExecutionCoachBot.set_business_idea` (src/bot.py lines 702-717):
update the venture text, or prompt the sender to initialize first when no
User row exists. -/
def set_business_idea (db : DB) (uid : Int) (args : List String) :
    String × DB :=
  if args.isEmpty then ("Usage: /idea Your business idea description", db)
  else
    let idea := String.intercalate " " args
    match lookupUser db uid with
    | none => ("Please use /start first to initialize your profile.", db)
    | some _ =>
      ("💡 Business idea set: " ++ idea ++
        "\n\nNow use /phase to set your current execution phase!"
      , { db with users := db.users.map (fun v =>
          if v.telegram_id = uid then
            { v with current_business_idea := some idea }
          else v) })

/-! ## Scheduled sweeps (src/bot.py lines 1064-1120) -/

/-- The users a sweep iterates:
`User.last_active > datetime.utcnow() - timedelta(days=7)`. -/
def activeUsers (db : DB) (clock : Clock) : List UserRow :=
  let week_ago := clock.utcDate - 7
  db.users.filter (fun u => week_ago < u.last_active)

/-- The daily check-in text (src/bot.py lines 1077-1088), with the three
interpolations that matter; `upperStr` models `.upper()`. -/
def upperStr (s : String) : String := ⟨s.data.map Char.toUpper⟩

def checkin_msg (first_name : String) (streak : Nat) (phase : String) :
    String :=
  "🌅 **Daily Check-in Time!**\n\nHey " ++ first_name ++
  "!\n\nCurrent streak: **" ++ toString streak ++ " days**\nPhase: **" ++
  upperStr phase ++ "**\n\nWhat's your 5-minute action for today? Even tiny progress counts in the "
  ++ phase ++ " phase!\n\nReply with what you accomplished or use /stuck if you're feeling blocked. 💪"

/-- The fixed weekly reminder text (src/bot.py line 1113). -/
def weekly_reminder_text : String :=
  "📅 **Weekly Planning Time!**\n\nUse /plan to set up your week for execution success! 🚀"

/-- One iteration of the `daily_checkin` loop: the whole body (context
build through a fresh `UserContext`, then the send) sits inside
`try`/`except`, so any per-user failure is merely recorded.  A missing
context entry models the `KeyError` path, also caught. -/
def dailyAttempt (db : DB) (clock : Clock)
    (send : Int → String → Except String Unit) (u : UserRow) : Int × Bool :=
  match (get_user_data ⟨db, none⟩ u.telegram_id clock).1 with
  | none => (u.telegram_id, false)
  | some c =>
    match send u.telegram_id
        (checkin_msg u.first_name c.current_streak c.execution_phase) with
    | .ok _ => (u.telegram_id, true)
    | .error _ => (u.telegram_id, false)

/-- The `for user in active_users` loop of `daily_checkin`: every user is
attempted, whatever the earlier outcomes were. -/
def dailyLoop (db : DB) (clock : Clock)
    (send : Int → String → Except String Unit) :
    List UserRow → List (Int × Bool)
  | [] => []
  | u :: rest => dailyAttempt db clock send u :: dailyLoop db clock send rest

/-- `ExecutionCoachBot.daily_checkin` (src/bot.py lines 1064-1100):
sweep the users active in the last 7 days; returns, per attempted user,
whether the send succeeded. -/
def daily_checkin (db : DB) (clock : Clock)
    (send : Int → String → Except String Unit) : List (Int × Bool) :=
  dailyLoop db clock send (activeUsers db clock)

/-- The per-user loop body of `weekly_planning_reminder`
(src/bot.py lines 1109-1116). -/
def weeklyLoop (send : Int → String → Except String Unit) :
    List UserRow → List (Int × Bool)
  | [] => []
  | u :: rest =>
    match send u.telegram_id weekly_reminder_text with
    | .ok _ => (u.telegram_id, true) :: weeklyLoop send rest
    | .error _ => (u.telegram_id, false) :: weeklyLoop send rest

/-- `ExecutionCoachBot.weekly_planning_reminder` (src/bot.py lines
1102-1120). -/
def weekly_planning_reminder (db : DB) (clock : Clock)
    (send : Int → String → Except String Unit) : List (Int × Bool) :=
  weeklyLoop send (activeUsers db clock)

/-! ## Claim theorems -/

/-- C4: `fallback_response` selects exactly one of four buckets in the
priority order procrastination, impatience, celebration, general, first
match winning; a message containing both a procrastination keyword
("stuck") and an impatience keyword ("slow") resolves to the
procrastination template. -/
theorem C4_fallback_priority_order (message : String) (ctx : Option ContextData) :
    fallback_response message ctx
      = bucketTemplate (fallback_bucket message) (ctxFirstName ctx)
          (ctxStreak ctx) (ctxPhase ctx) ∧
    (containsAny (lowerStr message) procrastinationWords = true →
      fallback_bucket message = FallbackBucket.procrastination) ∧
    (containsAny (lowerStr message) procrastinationWords = false →
      containsAny (lowerStr message) impatienceWords = true →
      fallback_bucket message = FallbackBucket.impatience) ∧
    (containsAny (lowerStr message) procrastinationWords = false →
      containsAny (lowerStr message) impatienceWords = false →
      containsAny (lowerStr message) celebrationWords = true →
      fallback_bucket message = FallbackBucket.celebration) ∧
    (containsAny (lowerStr message) procrastinationWords = false →
      containsAny (lowerStr message) impatienceWords = false →
      containsAny (lowerStr message) celebrationWords = false →
      fallback_bucket message = FallbackBucket.general) ∧
    fallback_response "I feel stuck and progress is slow" ctx
      = procrastinationTemplate (ctxFirstName ctx) (ctxStreak ctx)
          (ctxPhase ctx) := by
  refine ⟨?_, ?_, ?_, ?_, ?_, ?_⟩
  · by_cases h1 : containsAny (lowerStr message) procrastinationWords <;>
      by_cases h2 : containsAny (lowerStr message) impatienceWords <;>
      by_cases h3 : containsAny (lowerStr message) celebrationWords <;>
      simp [fallback_response, fallback_bucket, bucketTemplate, h1, h2, h3]
  · intro h1
    simp [fallback_bucket, h1]
  · intro h1 h2
    simp [fallback_bucket, h1, h2]
  · intro h1 h2 h3
    simp [fallback_bucket, h1, h2, h3]
  · intro h1 h2 h3
    simp [fallback_bucket, h1, h2, h3]
  · have h1 : containsAny (lowerStr "I feel stuck and progress is slow")
        procrastinationWords = true := by decide
    simp [fallback_response, h1]

/-- Witness for C4: a message matching both the procrastination keyword
"stuck" and the impatience keyword "slow" lands in the procrastination
bucket; a message matching only "slow" lands in the impatience bucket. -/
theorem C4_witness :
    fallback_bucket "I feel stuck and progress is slow"
      = FallbackBucket.procrastination ∧
    fallback_bucket "everything is so slow"
      = FallbackBucket.impatience := by
  constructor
  · exact (C4_fallback_priority_order "I feel stuck and progress is slow"
      none).2.1 (by decide)
  · exact (C4_fallback_priority_order "everything is so slow"
      none).2.2.1 (by decide) (by decide)

/-- C5: the context-tag classifier unions five independent checks over
the lower-cased message, without short-circuiting: each tag appears iff
its keyword check fires; "stuck" plus "win" yields both tags; the result
is the sentinel "general" exactly when no check fires. -/
theorem C5_analyze_tags_union (message : String) :
    (analyzeTags message = [] → analyze_message_context message = "general") ∧
    (analyzeTags message ≠ [] →
      analyze_message_context message
        = String.intercalate "," (analyzeTags message)) ∧
    ("procrastination" ∈ analyzeTags message ↔
      containsAny (lowerStr message) procrastinationTagWords = true) ∧
    ("impatience" ∈ analyzeTags message ↔
      containsAny (lowerStr message) impatienceTagWords = true) ∧
    ("win" ∈ analyzeTags message ↔
      containsAny (lowerStr message) winTagWords = true) ∧
    ("customer_related" ∈ analyzeTags message ↔
      containsAny (lowerStr message) customerTagWords = true) ∧
    ("financial" ∈ analyzeTags message ↔
      containsAny (lowerStr message) financialTagWords = true) ∧
    (analyze_message_context message = "general" ↔ analyzeTags message = []) ∧
    analyze_message_context "I was stuck but scored a win"
      = "procrastination,win" := by
  by_cases h1 : containsAny (lowerStr message) procrastinationTagWords <;>
    by_cases h2 : containsAny (lowerStr message) impatienceTagWords <;>
    by_cases h3 : containsAny (lowerStr message) winTagWords <;>
    by_cases h4 : containsAny (lowerStr message) customerTagWords <;>
    by_cases h5 : containsAny (lowerStr message) financialTagWords <;>
    refine ⟨?_, ?_, ?_, ?_, ?_, ?_, ?_, ?_, by decide⟩ <;>
    simp [analyze_message_context, analyzeTags, String.intercalate,
      h1, h2, h3, h4, h5] <;>
    decide

/-- Witness for C5: a neutral message gets the sentinel tag, and the
"stuck"+"win" message gets exactly the two tags, in check order. -/
theorem C5_witness :
    analyze_message_context "hello there" = "general" ∧
    analyze_message_context "I was stuck but scored a win"
      = "procrastination,win" := by
  constructor
  · exact (C5_analyze_tags_union "hello there").1 (by decide)
  · exact (C5_analyze_tags_union "x").2.2.2.2.2.2.2.2

/-! ## C2: generation failure handling -/

/-- A failing generation attempt: the call raised, the response object or
its text was missing, or the text was empty. -/
def genFailed : GenOutcome → Prop
  | .error _ => True
  | .ok none => True
  | .ok (some t) => t = ""

/-- When generation is disabled or its attempt fails,
`generate_response` returns exactly the fallback text. -/
theorem generate_response_falls_back (enabled : Bool) (outcome : GenOutcome)
    (m : String) (c : Option ContextData)
    (h : enabled = false ∨ genFailed outcome) :
    generate_response enabled outcome m c = fallback_response m c := by
  rcases h with h | h
  · subst h
    simp [generate_response]
  · cases outcome with
    | error e => cases enabled <;> simp [generate_response]
    | ok t =>
      cases t with
      | none => cases enabled <;> simp [generate_response]
      | some s =>
        have hs : s = "" := h
        subst hs
        cases enabled <;> simp [generate_response]

theorem str_append_ne_empty_right (a b : String) (h : b.length ≠ 0) :
    a ++ b ≠ "" := by
  intro he
  have := congrArg String.length he
  rw [String.length_append] at this
  have hz : ("" : String).length = 0 := rfl
  omega

theorem procrastinationTemplate_ne_empty (n : String) (s : Nat) (p : String) :
    procrastinationTemplate n s p ≠ "" := by
  unfold procrastinationTemplate
  exact str_append_ne_empty_right _ _ (by decide)

theorem impatienceTemplate_ne_empty (s : Nat) (p : String) :
    impatienceTemplate s p ≠ "" := by
  unfold impatienceTemplate
  exact str_append_ne_empty_right _ _ (by decide)

theorem celebrationTemplate_ne_empty (s : Nat) (p : String) :
    celebrationTemplate s p ≠ "" := by
  unfold celebrationTemplate
  exact str_append_ne_empty_right _ _ (by decide)

theorem generalTemplate_ne_empty (n : String) (s : Nat) (p : String) :
    generalTemplate n s p ≠ "" := by
  unfold generalTemplate
  exact str_append_ne_empty_right _ _ (by decide)

/-- Every fallback reply is non-empty text. -/
theorem fallback_response_ne_empty (message : String)
    (ctx : Option ContextData) : fallback_response message ctx ≠ "" := by
  unfold fallback_response
  by_cases h1 : containsAny (lowerStr message) procrastinationWords <;>
    by_cases h2 : containsAny (lowerStr message) impatienceWords <;>
    by_cases h3 : containsAny (lowerStr message) celebrationWords <;>
    simp [h1, h2, h3, procrastinationTemplate_ne_empty,
      impatienceTemplate_ne_empty, celebrationTemplate_ne_empty,
      generalTemplate_ne_empty]

/-- C2 (amended): when hosted generation is enabled but the call raises
or returns an empty/missing payload, `generate_response` returns the
non-empty fallback text without propagating an exception (the embedded
function is total) — but the conversation logged by `handle_message`
records origin `"gemini"` whenever generation is enabled, never
`"fallback"`, regardless of which path produced the text. -/
theorem C2_generation_failure_fallback_logged_as_gemini (message : String)
    (ctx : Option ContextData) (outcome : GenOutcome)
    (hfail : genFailed outcome) :
    generate_response true outcome message ctx = fallback_response message ctx ∧
    generate_response true outcome message ctx ≠ "" ∧
    response_type true = "gemini" := by
  have h := generate_response_falls_back true outcome message ctx (Or.inr hfail)
  refine ⟨h, ?_, rfl⟩
  rw [h]
  exact fallback_response_ne_empty message ctx

/-- Witness for C2's amended theorem at a concrete failing outcome. -/
theorem C2_witness :
    generate_response true (GenOutcome.ok none) "hi" none
      = fallback_response "hi" none ∧
    generate_response true (GenOutcome.ok none) "hi" none ≠ "" ∧
    response_type true = "gemini" :=
  C2_generation_failure_fallback_logged_as_gemini "hi" none
    (GenOutcome.ok none) trivial

/-- Counterexample for C2 as stated: on a transport error with generation
enabled, `handle_message` replies with the fallback text (here the
general template for the fresh user "Ada"), yet the conversation row it
logs carries `response_type = "gemini"` — the origin recorded is
`generated`, not `fallback`. -/
theorem C2_counterexample :
    (handle_message true (GenOutcome.error "transport error") DB.empty 7
        "Ada" "hello" ⟨0, 0⟩).1
      = generalTemplate "Ada" 0 "planning" ∧
    ((handle_message true (GenOutcome.error "transport error") DB.empty 7
        "Ada" "hello" ⟨0, 0⟩).2).conversations.map
        (fun c => c.response_type) = ["gemini"] ∧
    "gemini" ≠ "fallback" := by
  refine ⟨by decide, by decide, by decide⟩

/-! ## C6: aggregation for an absent user -/

/-- C6 (amended): when no User row exists, `get_user_data` does not fail
— it returns the empty dict (modelled `none`) and leaves the cache
untouched; the "initialize first" prompt is issued not by the aggregator
but by handlers such as `/idea` through their own user lookup. -/
theorem C6_absent_user_empty_context (db : DB) (uid : Int) (clock : Clock)
    (habs : lookupUser db uid = none) :
    (get_user_data ⟨db, none⟩ uid clock).1 = none ∧
    (get_user_data ⟨db, none⟩ uid clock).2 = ⟨db, none⟩ ∧
    (∀ args : List String, args ≠ [] →
      (set_business_idea db uid args).1
        = "Please use /start first to initialize your profile.") := by
  refine ⟨?_, ?_, ?_⟩
  · simp [get_user_data, habs]
  · simp [get_user_data, habs]
  · intro args hargs
    have hne : args.isEmpty = false := by
      cases args with
      | nil => exact absurd rfl hargs
      | cons a l => rfl
    simp [set_business_idea, hne, habs]

/-- Witness for C6's amended theorem on the empty store. -/
theorem C6_witness :
    (get_user_data ⟨DB.empty, none⟩ 7 ⟨0, 0⟩).1 = none ∧
    (set_business_idea DB.empty 7 ["gardening", "app"]).1
      = "Please use /start first to initialize your profile." := by
  obtain ⟨h1, _, h3⟩ := C6_absent_user_empty_context DB.empty 7 ⟨0, 0⟩ rfl
  exact ⟨h1, h3 ["gardening", "app"] (by decide)⟩

/-- Counterexample for C6 as stated: for an absent user, aggregation does
not fail with `NotFound` — it produces the empty context (`{}`), and the
pipeline consumes it normally: `/stuck` on an empty store still replies
with a coaching text for "friend" (the procrastination fallback), not
with any initialize-first prompt. -/
theorem C6_counterexample :
    (get_user_data ⟨DB.empty, none⟩ 9 ⟨0, 0⟩).1 = none ∧
    (handle_stuck false (GenOutcome.error "e") DB.empty 9 ⟨0, 0⟩).1
      = "🚨 Stuck Alert Activated!\n\n"
        ++ procrastinationTemplate "friend" 0 "planning" ∧
    (handle_stuck false (GenOutcome.error "e") DB.empty 9 ⟨0, 0⟩).1
      ≠ "Please use /start first to initialize your profile." := by
  refine ⟨by decide, by decide, by decide⟩

/-! ## C3: cache invalidation after a write -/

/-- A found user row carries the looked-up identity. -/
theorem lookupUser_telegram_id (db : DB) (uid : Int) (u : UserRow)
    (hu : lookupUser db uid = some u) : u.telegram_id = uid := by
  have h := List.find?_some hu
  simpa using h

/-- `db_log_activity` bumps the stored user's `total_activities` and
refreshes `last_active`; the lookup still succeeds. -/
theorem lookupUser_db_log_activity (db : DB) (uid : Int) (d t : String)
    (m : Option Nat) (n g : Option String) (clock : Clock) :
    lookupUser (db_log_activity db uid d t m n g clock) uid
      = (lookupUser db uid).map (fun u =>
          { u with total_activities := u.total_activities + 1, last_active := clock.utcDate }) := by
  obtain ⟨us, gs, acts, convs⟩ := db
  unfold lookupUser db_log_activity
  simp only []
  induction us with
  | nil => rfl
  | cons v rest ih =>
    by_cases hv : v.telegram_id = uid
    · simp [List.find?, hv]
    · simp only [List.map_cons, List.find?]
      have hid : (if v.telegram_id = uid then
          { v with total_activities := v.total_activities + 1, last_active := clock.utcDate }
        else v).telegram_id = v.telegram_id := by
        rw [if_neg hv]
      simp [hid, hv, ih]

/-- The Activity query after `db_log_activity` returns the new row in
front of the previous ones. -/
theorem activitiesOf_db_log_activity (db : DB) (uid : Int) (d t : String)
    (m : Option Nat) (n g : Option String) (clock : Clock) :
    activitiesOf (db_log_activity db uid d t m n g clock) uid
      = ({ user_id := uid, description := d, activity_type := t
          , timestamp := clock.utcDate, mood_score := m, notes := n
          , context_tags := g } : ActivityRow) :: activitiesOf db uid := by
  simp [activitiesOf, db_log_activity]

/-- Inserting an activity whose timestamp is at least every other one
puts it at the head of the descending sort. -/
theorem sortedActivitiesDesc_cons_max (x : ActivityRow)
    (l : List ActivityRow) (h : ∀ a ∈ l, a.timestamp ≤ x.timestamp) :
    sortedActivitiesDesc (x :: l) = x :: sortedActivitiesDesc l := by
  unfold sortedActivitiesDesc
  rw [List.insertionSort]
  cases hs : List.insertionSort tsGe l with
  | nil => rfl
  | cons b tl =>
    have hb : b ∈ l := by
      have hmem : b ∈ List.insertionSort tsGe l := by
        rw [hs]
        exact List.mem_cons_self _ _
      exact (List.perm_insertionSort tsGe l).subset hmem
    have hx : tsGe x b := h b hb
    simp [List.orderedInsert, hx]

/-- C3 (amended, round-trip half): `log_activity` resets the per-call
cache, so a `get_user_data` immediately after re-aggregates: the fresh
context contains the just-written activity among `recent_activities` and
the incremented total-activity count.  The freshness hypothesis (the new
timestamp is no older than the user's previous ones) reflects the
monotone store clock. -/
theorem C3_log_activity_invalidates_cache (s : UCState) (uid : Int)
    (desc atype : String) (mood : Option Nat) (notes tags : Option String)
    (clock : Clock) (u : UserRow)
    (hu : lookupUser s.db uid = some u)
    (hfresh : ∀ a ∈ activitiesOf s.db uid, a.timestamp ≤ clock.utcDate) :
    ∃ c : ContextData,
      (get_user_data (log_activity s uid desc atype mood notes tags clock)
        uid clock).1 = some c ∧
      ({ user_id := uid, description := desc, activity_type := atype
        , timestamp := clock.utcDate, mood_score := mood, notes := notes
        , context_tags := tags } : ActivityRow) ∈ c.recent_activities ∧
      c.total_activities = u.total_activities + 1 := by
  have htid : u.telegram_id = uid := lookupUser_telegram_id _ _ _ hu
  have hlk : lookupUser
      (db_log_activity s.db uid desc atype mood notes tags clock) uid
      = some { u with total_activities := u.total_activities + 1, last_active := clock.utcDate } := by
    rw [lookupUser_db_log_activity, hu]
    rfl
  refine ⟨aggregate (db_log_activity s.db uid desc atype mood notes tags clock)
      { u with total_activities := u.total_activities + 1, last_active := clock.utcDate } clock, ?_, ?_, ?_⟩
  · simp [get_user_data, log_activity, hlk]
  · show _ ∈ (aggregate _ _ _).recent_activities
    simp only [aggregate]
    rw [htid, activitiesOf_db_log_activity,
      sortedActivitiesDesc_cons_max _ _ (by simpa using hfresh)]
    simp
  · simp [aggregate]

/-- A demo user and store for concrete scenarios. -/
def demoUser : UserRow :=
  { telegram_id := 7, first_name := "Ada", current_business_idea := none
  , execution_phase := "planning", created_at := 0, total_activities := 0
  , last_active := 0 }

def demoDB : DB := ⟨[demoUser], [], [], []⟩

/-- Witness for C3's amended theorem on the demo store. -/
theorem C3_witness :
    ∃ c : ContextData,
      (get_user_data (log_activity ⟨demoDB, none⟩ 7 "sent outreach email"
        "task_completed" none none none ⟨0, 0⟩) 7 ⟨0, 0⟩).1 = some c ∧
      ({ user_id := 7, description := "sent outreach email"
        , activity_type := "task_completed", timestamp := 0
        , mood_score := none, notes := none
        , context_tags := none } : ActivityRow) ∈ c.recent_activities ∧
      c.total_activities = 1 := by
  obtain ⟨c, h1, h2, h3⟩ := C3_log_activity_invalidates_cache ⟨demoDB, none⟩ 7
    "sent outreach email" "task_completed" none none none ⟨0, 0⟩ demoUser
    (by rfl) (by intro a ha; simp [activitiesOf, demoDB] at ha)
  exact ⟨c, h1, h2, by simpa [demoUser] using h3⟩

/-- The blocker row `/stuck` writes on the demo store. -/
def stuckActivity : ActivityRow :=
  { user_id := 7, description := "User reported feeling stuck"
  , activity_type := "blocker", timestamp := 0, mood_score := none
  , notes := none, context_tags := some "procrastination,stuck" }

/-- Counterexample for C3 as stated: the `/stuck` handler aggregates
context *before* logging the blocker activity and hands that earlier
snapshot to prompt assembly.  After the handler runs, the store contains
the blocker row and the incremented total, but the context passed to
`generate_response` still shows zero activities — stale with respect to
the write performed in the same logical operation. -/
theorem C3_counterexample :
    (handle_stuck false (GenOutcome.error "net") demoDB 7 ⟨0, 0⟩).2.activities
      = [stuckActivity] ∧
    lookupUser (handle_stuck false (GenOutcome.error "net") demoDB 7
      ⟨0, 0⟩).2 7 = some { demoUser with total_activities := 1 } ∧
    (handle_stuck_prompt_context demoDB 7 ⟨0, 0⟩).map
      (fun c => c.recent_activities) = some [] ∧
    (handle_stuck_prompt_context demoDB 7 ⟨0, 0⟩).map
      (fun c => c.total_activities) = some 0 := by
  refine ⟨by decide, by decide, by decide, by decide⟩

/-! ## C7: referential integrity of user identities -/

/-- The soft-reference invariant of the data model: every Goal, Activity
and Conversation row names an existing User.  (No code path ever inserts
a ProgressMetric row, so that table is trivially covered.) -/
def refsOK (db : DB) : Prop :=
  (∀ g ∈ db.goals, ∃ u ∈ db.users, u.telegram_id = g.user_id) ∧
  (∀ a ∈ db.activities, ∃ u ∈ db.users, u.telegram_id = a.user_id) ∧
  (∀ c ∈ db.conversations, ∃ u ∈ db.users, u.telegram_id = c.user_id)

instance (db : DB) : Decidable (refsOK db) := by
  unfold refsOK
  infer_instance

/-- Counterexample for C7 as stated: `/goal` from a user who never sent
`/start` inserts a Goal row referencing a nonexistent User — `set_goal`
performs no user check, so the invariant is not preserved from the
(reachable) empty store. -/
theorem C7_counterexample :
    refsOK DB.empty ∧
    ¬ refsOK (set_goal DB.empty 7 ["Launch", "MVP"]).2 ∧
    (set_goal DB.empty 7 ["Launch", "MVP"]).2.goals
      = [{ user_id := 7, title := "Launch MVP", status := "active"
          , goal_type := "general", priority := 1 }] ∧
    (set_goal DB.empty 7 ["Launch", "MVP"]).2.users = [] := by
  refine ⟨by decide, by decide, by decide, by decide⟩

/-- C7 (amended): the user-reference invariant is preserved by the
inserting operations only under the precondition that the referenced
User row already exists (which holds for handlers that call
`get_or_create_user` first, e.g. free-text messages); `set_goal` and
`log_activity` themselves never check it. -/
theorem C7_inserts_preserve_refs_for_existing_user (db : DB) (uid : Int)
    (clock : Clock) (hinv : refsOK db)
    (hu : ∃ u ∈ db.users, u.telegram_id = uid) :
    (∀ args : List String, refsOK (set_goal db uid args).2) ∧
    (∀ (d t : String) (m : Option Nat) (n g : Option String),
      refsOK (db_log_activity db uid d t m n g clock)) := by
  obtain ⟨hg, ha, hc⟩ := hinv
  constructor
  · intro args
    by_cases hargs : args.isEmpty
    · simp [set_goal, hargs]
      exact ⟨hg, ha, hc⟩
    · simp only [set_goal, hargs, if_false]
      refine ⟨?_, ha, hc⟩
      intro g hgmem
      rcases List.mem_append.mp hgmem with hold | hnew
      · exact hg g hold
      · have : g = { user_id := uid, title := String.intercalate " " args, status := "active", goal_type := "general", priority := 1 } := by
          simpa using hnew
        subst this
        exact hu
  · intro d t m n g
    have hpres : ∀ tid : Int, (∃ u ∈ db.users, u.telegram_id = tid) →
        ∃ u ∈ (db_log_activity db uid d t m n g clock).users,
          u.telegram_id = tid := by
      intro tid ⟨u, hmem, htid⟩
      refine ⟨if u.telegram_id = uid then
        { u with total_activities := u.total_activities + 1, last_active := clock.utcDate } else u, ?_, ?_⟩
      · simp only [db_log_activity]
        exact List.mem_map_of_mem _ hmem
      · split
        · exact htid
        · exact htid
    refine ⟨?_, ?_, ?_⟩
    · intro x hx
      exact hpres x.user_id (hg x (by simpa [db_log_activity] using hx))
    · intro x hx
      have hx' : x = ({ user_id := uid, description := d, activity_type := t, timestamp := clock.utcDate, mood_score := m, notes := n, context_tags := g } : ActivityRow) ∨ x ∈ db.activities := by
        simpa [db_log_activity] using hx
      rcases hx' with rfl | hold
      · exact hpres uid hu
      · exact hpres x.user_id (ha x hold)
    · intro x hx
      exact hpres x.user_id (hc x (by simpa [db_log_activity] using hx))

/-- Witness for C7's amended theorem: with the demo user present, both
inserting operations keep every reference valid. -/
theorem C7_witness :
    refsOK (set_goal demoDB 7 ["Launch", "MVP"]).2 ∧
    refsOK (db_log_activity demoDB 7 "reached out" "task_completed"
      none none none ⟨0, 0⟩) := by
  obtain ⟨h1, h2⟩ := C7_inserts_preserve_refs_for_existing_user demoDB 7
    ⟨0, 0⟩ (by decide) ⟨demoUser, by simp [demoDB], by decide⟩
  exact ⟨h1 ["Launch", "MVP"], h2 "reached out" "task_completed" none none none⟩

/-! ## C8: the /win end-to-end scenario -/

/-- The Activity row `/win Launched landing page` writes for sender
`uid` at a given clock. -/
def winActivity (uid : Int) (clock : Clock) : ActivityRow :=
  { user_id := uid, description := "Launched landing page"
  , activity_type := "win", timestamp := clock.utcDate
  , mood_score := some 4, notes := none
  , context_tags := some "win,celebration" }

/-- C8: a user with no prior rows sending `/win Launched landing page`
gets an Activity row with type "win", mood 4 and tags containing "win",
and — on the deterministic reply path (no credential, or a failed
generation attempt) — a reply that confirms the win was logged and
references a streak day of at least 1 ("day 1": the absent user row
yields streak 0 and the celebration template prints streak + 1). -/
theorem C8_win_scenario (uid : Int) (clock : Clock) (enabled : Bool)
    (outcome : GenOutcome) (hfb : enabled = false ∨ genFailed outcome) :
    (log_win enabled outcome DB.empty uid ["Launched", "landing", "page"]
        clock).2.activities = [winActivity uid clock] ∧
    (∀ a ∈ (log_win enabled outcome DB.empty uid
        ["Launched", "landing", "page"] clock).2.activities,
      a.activity_type = "win" ∧ a.mood_score = some 4 ∧
      ∃ tags, a.context_tags = some tags ∧ strContains tags "win" = true) ∧
    (log_win enabled outcome DB.empty uid ["Launched", "landing", "page"]
        clock).1
      = "🎉 Win Logged!\n\n" ++ celebrationTemplate 0 "planning" ∧
    strContains (log_win enabled outcome DB.empty uid
      ["Launched", "landing", "page"] clock).1 "Win Logged" = true ∧
    (∃ n : Nat, 1 ≤ n ∧
      strContains (log_win enabled outcome DB.empty uid
        ["Launched", "landing", "page"] clock).1
        ("day " ++ toString n) = true) := by
  have hacts : (log_win enabled outcome DB.empty uid
      ["Launched", "landing", "page"] clock).2.activities
      = [winActivity uid clock] := rfl
  have hmsg : (log_win enabled outcome DB.empty uid
      ["Launched", "landing", "page"] clock).1
      = "🎉 Win Logged!\n\n" ++ generate_response enabled outcome
          "I just achieved a win: Launched landing page. Please celebrate with me and help me build on this momentum!"
          none := rfl
  rw [generate_response_falls_back _ _ _ _ hfb] at hmsg
  have hfr : fallback_response
      "I just achieved a win: Launched landing page. Please celebrate with me and help me build on this momentum!"
      none = celebrationTemplate 0 "planning" := by decide
  rw [hfr] at hmsg
  refine ⟨hacts, ?_, hmsg, ?_, 1, le_refl 1, ?_⟩
  · intro a ha
    rw [hacts] at ha
    have ha' : a = winActivity uid clock := by simpa using ha
    subst ha'
    exact ⟨rfl, rfl, "win,celebration", rfl, by decide⟩
  · rw [hmsg]
    decide
  · rw [hmsg]
    decide

/-- Witness for C8 at a concrete sender and clock, on the no-credential
path. -/
theorem C8_witness :
    (log_win false (GenOutcome.ok none) DB.empty 7
        ["Launched", "landing", "page"] ⟨0, 0⟩).1
      = "🎉 Win Logged!\n\n" ++ celebrationTemplate 0 "planning" ∧
    (∃ n : Nat, 1 ≤ n ∧
      strContains (log_win false (GenOutcome.ok none) DB.empty 7
        ["Launched", "landing", "page"] ⟨0, 0⟩).1
        ("day " ++ toString n) = true) := by
  obtain ⟨_, _, h3, _, h5⟩ := C8_win_scenario 7 ⟨0, 0⟩ false
    (GenOutcome.ok none) (Or.inl rfl)
  exact ⟨h3, h5⟩

/-! ## C9: scheduled sweeps are per-user resilient -/

/-- Whatever the context lookup and the send do, an attempt is recorded
for exactly the attempted user. -/
theorem dailyAttempt_fst (db : DB) (clock : Clock)
    (send : Int → String → Except String Unit) (u : UserRow) :
    (dailyAttempt db clock send u).1 = u.telegram_id := by
  cases hctx : (get_user_data ⟨db, none⟩ u.telegram_id clock).1 with
  | none => simp [dailyAttempt, hctx]
  | some c =>
    cases hs : send u.telegram_id
        (checkin_msg u.first_name c.current_streak c.execution_phase) with
    | ok a => simp [dailyAttempt, hctx, hs]
    | error e => simp [dailyAttempt, hctx, hs]

theorem dailyLoop_map_fst (db : DB) (clock : Clock)
    (send : Int → String → Except String Unit) (l : List UserRow) :
    (dailyLoop db clock send l).map Prod.fst
      = l.map (fun u => u.telegram_id) := by
  induction l with
  | nil => rfl
  | cons u rest ih =>
    simp only [dailyLoop, List.map_cons, ih, dailyAttempt_fst]

theorem weeklyLoop_map_fst (send : Int → String → Except String Unit)
    (l : List UserRow) :
    (weeklyLoop send l).map Prod.fst = l.map (fun u => u.telegram_id) := by
  induction l with
  | nil => rfl
  | cons u rest ih =>
    simp only [weeklyLoop]
    cases send u.telegram_id weekly_reminder_text with
    | ok _ => simpa using ih
    | error _ => simpa using ih

/-- C9: both scheduled sweeps attempt exactly the users active within the
last 7 days (`last_active > now - 7`), in store order, and the attempted
sequence does not depend on which sends fail — a per-user failure never
aborts the remainder of the sweep. -/
theorem C9_sweeps_resilient (db : DB) (clock : Clock)
    (send send' : Int → String → Except String Unit) :
    (daily_checkin db clock send).map Prod.fst
      = (activeUsers db clock).map (fun u => u.telegram_id) ∧
    (weekly_planning_reminder db clock send).map Prod.fst
      = (activeUsers db clock).map (fun u => u.telegram_id) ∧
    (daily_checkin db clock send).map Prod.fst
      = (daily_checkin db clock send').map Prod.fst ∧
    (weekly_planning_reminder db clock send).map Prod.fst
      = (weekly_planning_reminder db clock send').map Prod.fst ∧
    (∀ u ∈ db.users, u ∈ activeUsers db clock ↔
      clock.utcDate - 7 < u.last_active) := by
  refine ⟨dailyLoop_map_fst db clock send _, weeklyLoop_map_fst send _,
    ?_, ?_, ?_⟩
  · exact (dailyLoop_map_fst db clock send _).trans
      (dailyLoop_map_fst db clock send' _).symm
  · exact (weeklyLoop_map_fst send _).trans
      (weeklyLoop_map_fst send' _).symm
  · intro u hu
    simp [activeUsers, hu]

/-- A store with one recently active user (7) and one stale user (8),
seen at UTC day 10. -/
def sweepDB : DB :=
  ⟨[{ telegram_id := 7, first_name := "Ada", current_business_idea := none
    , execution_phase := "planning", created_at := 0
    , total_activities := 0, last_active := 10 },
    { telegram_id := 8, first_name := "Bob", current_business_idea := none
    , execution_phase := "planning", created_at := 0
    , total_activities := 0, last_active := 0 }], [], [], []⟩

/-- Witness for C9: even when every send fails, the daily sweep attempts
exactly the one active user, and the stale user is excluded. -/
theorem C9_witness :
    (daily_checkin sweepDB ⟨10, 10⟩
      (fun _ _ => Except.error "network down")).map Prod.fst = [7] ∧
    (weekly_planning_reminder sweepDB ⟨10, 10⟩
      (fun _ _ => Except.error "network down")).map Prod.fst = [7] := by
  obtain ⟨h1, h2, _, _, h5⟩ := C9_sweeps_resilient sweepDB ⟨10, 10⟩
    (fun _ _ => Except.error "network down") (fun _ _ => Except.ok ())
  constructor
  · rw [h1]
    decide
  · rw [h2]
    decide

/-! ## C10: local-date anchor vs UTC timestamps -/

/-- If today's date is among the activity dates, the streak is at least
one. -/
theorem calculate_streak_pos (acts : List ActivityRow) (today : Int)
    (h : today ∈ activityDates acts) :
    1 ≤ calculate_streak acts today := by
  by_contra hlt
  push_neg at hlt
  have h0 : calculate_streak acts today = 0 := by omega
  have h2 := (calculate_streak_spec acts today).2
  rw [h0] at h2
  simp only [Int.ofNat_zero, sub_zero] at h2
  exact h2 (by simpa using h)

/-- If today's date is not among the activity dates, the streak is
zero. -/
theorem calculate_streak_zero (acts : List ActivityRow) (today : Int)
    (h : today ∉ activityDates acts) :
    calculate_streak acts today = 0 := by
  by_contra hne
  have hpos : 0 < calculate_streak acts today := Nat.pos_of_ne_zero hne
  have h1 := (calculate_streak_spec acts today).1 0 hpos
  simp only [Int.ofNat_zero, sub_zero] at h1
  exact h (by simpa using h1)

/-- C10: `calculate_streak` anchors at the process-local calendar date
while `log_activity` timestamps rows with the UTC calendar date.  When
the two clocks agree, a just-logged activity makes the streak at least
1; when they fall on different calendar dates, the just-logged activity
does not count as "today", and — absent an activity already dated at the
local date — the streak is 0. -/
theorem C10_streak_anchor_clock_skew (db : DB) (uid : Int) (clock : Clock)
    (desc atype : String) (mood : Option Nat) (notes tags : Option String) :
    (clock.localDate = clock.utcDate →
      1 ≤ calculate_streak
        (activitiesOf (db_log_activity db uid desc atype mood notes tags
          clock) uid) clock.localDate) ∧
    ((∀ a ∈ activitiesOf db uid, a.timestamp ≠ clock.localDate) →
      clock.utcDate ≠ clock.localDate →
      calculate_streak
        (activitiesOf (db_log_activity db uid desc atype mood notes tags
          clock) uid) clock.localDate = 0) := by
  rw [activitiesOf_db_log_activity]
  constructor
  · intro hl
    apply calculate_streak_pos
    rw [hl]
    simp [activityDates]
  · intro hnone hne
    apply calculate_streak_zero
    simp only [activityDates, List.map_cons, List.toFinset_cons,
      Finset.mem_insert, List.mem_toFinset, List.mem_map]
    push_neg
    refine ⟨fun h => hne h.symm, ?_⟩
    intro a ha
    exact hnone a ha

/-- Witness for C10: logging on the empty store with agreeing clocks
gives streak ≥ 1; with the UTC date one day ahead of the local date the
just-logged activity yields streak 0. -/
theorem C10_witness :
    1 ≤ calculate_streak (activitiesOf (db_log_activity DB.empty 7 "work"
      "task_completed" none none none ⟨0, 0⟩) 7) 0 ∧
    calculate_streak (activitiesOf (db_log_activity DB.empty 7 "work"
      "task_completed" none none none ⟨1, 0⟩) 7) 0 = 0 := by
  obtain ⟨hpos, _⟩ := C10_streak_anchor_clock_skew DB.empty 7 ⟨0, 0⟩ "work"
    "task_completed" none none none
  obtain ⟨_, hzero⟩ := C10_streak_anchor_clock_skew DB.empty 7 ⟨1, 0⟩ "work"
    "task_completed" none none none
  refine ⟨hpos rfl, hzero ?_ (by decide)⟩
  intro a ha
  simp [activitiesOf, DB.empty] at ha
